import Mathlib

/-!
Shallow embedding of the dataiku-mcp tool layer.

The Python modules embedded here are:
* `dssmcp/tools/dss/recipe.py` — recipe-type classification tables and
  `create_recipe` validation;
* `dssmcp/tools/dss/dataset.py` — `get_dataset_sample` row clamping;
* `dssmcp/tools/dssclient.py` — `_generate_project_key`, `create_project`
  key generation, and `set_general_settings`.

Remote interaction (the DSS client) is modelled by explicit environment
records plus a trace of remote effects, so that "no remote call is issued"
becomes a statement about the returned trace.
-/

namespace DssMcp

/-! ## Recipe type classification tables (recipe.py, lines 8-88) -/

def SINGLE_INPUT_SINGLE_OUTPUT_TYPES : List String :=
  ["sync", "csync", "sort", "topn", "distinct", "prepare", "shaker",
   "sampling", "grouping", "window", "pivot", "download", "export", "upsert"]

def SINGLE_INPUT_MULTI_OUTPUT_TYPES : List String := ["split"]

def MULTI_INPUT_SINGLE_OUTPUT_TYPES : List String :=
  ["join", "vstack", "generate_features", "sql_query"]

def CODE_RECIPE_TYPES : List String :=
  ["python", "r", "sql_script", "pyspark", "sparkr", "spark_scala", "shell",
   "spark_sql_query", "cpython", "ksql", "streaming_spark_scala"]

def SCORING_TYPES : List String :=
  ["prediction_scoring", "clustering_scoring", "evaluation",
   "standalone_evaluation", "nlp_llm_evaluation"]

def OTHER_TYPES : List String :=
  ["extract_failed_rows", "nlp_llm_rag_embedding", "embed_dataset",
   "embed_documents"]

def SINGLE_INPUT_TYPES : List String :=
  SINGLE_INPUT_SINGLE_OUTPUT_TYPES ++ SINGLE_INPUT_MULTI_OUTPUT_TYPES
    ++ SCORING_TYPES ++ OTHER_TYPES

def SINGLE_OUTPUT_TYPES : List String :=
  SINGLE_INPUT_SINGLE_OUTPUT_TYPES ++ MULTI_INPUT_SINGLE_OUTPUT_TYPES
    ++ SCORING_TYPES ++ OTHER_TYPES

def MULTI_OUTPUT_TYPES : List String :=
  CODE_RECIPE_TYPES ++ SINGLE_INPUT_MULTI_OUTPUT_TYPES

def ALL_RECIPE_TYPES : List String :=
  SINGLE_INPUT_SINGLE_OUTPUT_TYPES ++ SINGLE_INPUT_MULTI_OUTPUT_TYPES
    ++ MULTI_INPUT_SINGLE_OUTPUT_TYPES ++ CODE_RECIPE_TYPES
    ++ SCORING_TYPES ++ OTHER_TYPES

/-- The six disjoint base classes, in source order, used to state the
partition invariant. -/
def RECIPE_TYPE_CLASSES : List (List String) :=
  [SINGLE_INPUT_SINGLE_OUTPUT_TYPES, SINGLE_INPUT_MULTI_OUTPUT_TYPES,
   MULTI_INPUT_SINGLE_OUTPUT_TYPES, CODE_RECIPE_TYPES, SCORING_TYPES,
   OTHER_TYPES]

/-! ## create_recipe (recipe.py, lines 96-201) -/

/-- One output specification: `{"name": ..., "append": ...}` with the
`append` key defaulted to `False` as in `out.get("append", False)`. -/
structure OutputSpec where
  name : String
  append : Bool
deriving DecidableEq, Repr

/-- The data interpolated into each `{"error": ...}` message of
`create_recipe`, one constructor per `return` site. -/
inductive RecipeError where
  | unknownRecipeType (recipe_type : String)
  | missingInputs (got : Nat)
  | missingOutputs (got : Nat)
  | inputArity (recipe_type : String) (got : Nat)
  | outputArity (recipe_type : String) (got : Nat)
  | scriptNotApplicable (recipe_type : String)
  | inputDatasetsNotFound (project_key : String) (missing : List String)
  | outputDatasetsNotFound (project_key : String) (missing : List String)
deriving DecidableEq, Repr

/-- Result dict of `create_recipe`: either `{"error": ...}` or the
`{"success": True, ...}` dict. -/
inductive CreateRecipeResult where
  | error (e : RecipeError)
  | success (project_key : String) (recipe_name : String)
      (recipe_type : String) (inputs : List String) (outputs : List String)
deriving DecidableEq, Repr

/-- Remote interactions `create_recipe` can perform, in order:
client construction, project fetch, `project.list_datasets()`, and the
mutating `builder.create()`. -/
inductive RecipeEffect where
  | getClient
  | getProject (project_key : String)
  | listDatasets
  | createRecipe
deriving DecidableEq, Repr

/-- The remote state `create_recipe` can observe: the names of the
project's datasets (from `project.list_datasets()`) and the name the
server assigns to the recipe built by `builder.create()`. -/
structure DSSEnv where
  datasets : List String
  createdRecipeName : String

def create_recipe (env : DSSEnv) (project_key : String) (recipe_type : String)
    (inputs : List String) (outputs : List OutputSpec)
    (recipe_name : Option String := none) (code : Option String := none) :
    CreateRecipeResult × List RecipeEffect :=
  if recipe_type ∉ ALL_RECIPE_TYPES then
    (.error (.unknownRecipeType recipe_type), [])
  else if inputs.length < 1 then
    (.error (.missingInputs inputs.length), [])
  else if outputs.length < 1 then
    (.error (.missingOutputs outputs.length), [])
  else if recipe_type ∈ SINGLE_INPUT_TYPES ∧ inputs.length > 1 then
    (.error (.inputArity recipe_type inputs.length), [])
  else if recipe_type ∈ SINGLE_OUTPUT_TYPES ∧ outputs.length > 1 then
    (.error (.outputArity recipe_type outputs.length), [])
  else if code ≠ none ∧ recipe_type ∉ CODE_RECIPE_TYPES then
    (.error (.scriptNotApplicable recipe_type), [])
  else
    let existing_datasets := env.datasets
    let missing_inputs := inputs.filter (fun n => n ∉ existing_datasets)
    if missing_inputs ≠ [] then
      (.error (.inputDatasetsNotFound project_key missing_inputs),
       [.getClient, .getProject project_key, .listDatasets])
    else
      let missing_outputs :=
        (outputs.map (fun o => o.name)).filter (fun n => n ∉ existing_datasets)
      if missing_outputs ≠ [] then
        (.error (.outputDatasetsNotFound project_key missing_outputs),
         [.getClient, .getProject project_key, .listDatasets])
      else
        (.success project_key env.createdRecipeName recipe_type inputs
           (outputs.map (fun o => o.name)),
         [.getClient, .getProject project_key, .listDatasets, .createRecipe])

/-- The six local validation checks of `create_recipe` in the order the
spec lists them, each paired with the error it reports. Stated from the
spec's words to compare against the source's control flow. -/
def validationChecks (recipe_type : String) (inputs : List String)
    (outputs : List OutputSpec) (code : Option String) :
    List (Bool × RecipeError) :=
  [(decide (recipe_type ∉ ALL_RECIPE_TYPES), .unknownRecipeType recipe_type),
   (decide (inputs.length < 1), .missingInputs inputs.length),
   (decide (outputs.length < 1), .missingOutputs outputs.length),
   (decide (recipe_type ∈ SINGLE_INPUT_TYPES ∧ inputs.length > 1),
    .inputArity recipe_type inputs.length),
   (decide (recipe_type ∈ SINGLE_OUTPUT_TYPES ∧ outputs.length > 1),
    .outputArity recipe_type outputs.length),
   (decide (code ≠ none ∧ recipe_type ∉ CODE_RECIPE_TYPES),
    .scriptNotApplicable recipe_type)]

/-- Error of the earliest violated check, per the spec's short-circuit
ordering. -/
def firstValidationError (recipe_type : String) (inputs : List String)
    (outputs : List OutputSpec) (code : Option String) : Option RecipeError :=
  ((validationChecks recipe_type inputs outputs code).find?
    (fun p => p.1)).map (fun p => p.2)

/-! ## get_dataset_sample (dataset.py, lines 169-227) -/

def MAX_SAMPLE_ROWS : Int := 1000
def DEFAULT_SAMPLE_ROWS : Int := 50

/-- The two clamping statements of `get_dataset_sample`:
`if num_rows > MAX_SAMPLE_ROWS: num_rows = MAX_SAMPLE_ROWS` followed by
`if num_rows < 1: num_rows = 1`. -/
def clampRows (num_rows : Int) : Int :=
  let n := if num_rows > MAX_SAMPLE_ROWS then MAX_SAMPLE_ROWS else num_rows
  if n < 1 then 1 else n

/-- The `partition_list` computed from the optional comma-separated
`partitions` argument (`None` stays `None`; an empty string is falsy). -/
def partitionList (partitions : Option String) : Option (List String) :=
  match partitions with
  | none => none
  | some p => if p = "" then none else some ((p.splitOn ",").map String.trim)

/-- The remote state `get_dataset_sample` observes: the dataset's schema
column names and the row stream `dataset.iter_rows(partitions=...)`, a
function of the partition list. Each row is a list of cell values. -/
structure DatasetEnv where
  columns : List String
  iter_rows : Option (List String) → List (List String)

/-- The `for row_values in dataset.iter_rows(...)` loop: append the zipped
row dict, then break once `len(rows) >= num_rows`. -/
def sampleLoop (columns : List String) (numRows : Nat)
    (acc : List (List (String × String))) :
    List (List String) → List (List (String × String))
  | [] => acc
  | r :: rs =>
    let acc2 := acc ++ [columns.zip r]
    if numRows ≤ acc2.length then acc2 else sampleLoop columns numRows acc2 rs

/-- Result dict of `get_dataset_sample`. -/
structure SampleResult where
  project_key : String
  dataset_name : String
  num_rows_requested : Int
  num_rows_returned : Nat
  columns : List String
  rows : List (List (String × String))
deriving DecidableEq, Repr

def get_dataset_sample (env : DatasetEnv) (project_key : String)
    (dataset_name : String) (num_rows : Int)
    (partitions : Option String) : SampleResult :=
  let clamped := clampRows num_rows
  let column_names := env.columns
  let partition_list := partitionList partitions
  let rows := sampleLoop column_names clamped.toNat [] (env.iter_rows partition_list)
  { project_key := project_key
    dataset_name := dataset_name
    num_rows_requested := clamped
    num_rows_returned := rows.length
    columns := column_names
    rows := rows }

/-! ## _generate_project_key (dssclient.py, lines 48-66) -/

/-- Per-character mapping of `_generate_project_key`: `char.upper()` for
alphabetic characters, digits unchanged, `"_"` otherwise. -/
def projectKeyChar (char : Char) : Char :=
  if char.isAlpha then char.toUpper
  else if char.isDigit then char
  else '_'

def _generate_project_key (project_name : String) : String :=
  String.mk (project_name.data.map projectKeyChar)

/-- The character-level semantics `_generate_project_key` invokes. Python's
`char.isalpha()` / `char.isdigit()` / `char.upper()` are Unicode-aware and
`str.upper()` performs *full case mapping*: uppercasing one character may
return several (e.g. U+00DF ß → "SS"). `projectKeyChar` above is the
ASCII restriction of this, where `upper` is always a single character. -/
structure PyStrSemantics where
  isalpha : Char → Bool
  isdigit : Char → Bool
  upper : Char → List Char

/-- The fragment of Python's Unicode tables the theorems below evaluate:
exact on every ASCII character, and on U+0390 (GREEK SMALL LETTER IOTA
WITH DIALYTIKA AND TONOS, alphabetic, whose full uppercase mapping per
Unicode SpecialCasing is U+0399 U+0308 U+0301), U+0399 (GREEK CAPITAL
LETTER IOTA, alphabetic, uppercases to itself) and the combining marks
U+0308 / U+0301 (neither alphabetic nor digits, uppercase to
themselves). -/
def pythonStrMethods : PyStrSemantics where
  isalpha c := c.isAlpha || c = Char.ofNat 912 || c = Char.ofNat 921
  isdigit c := c.isDigit
  upper c :=
    if c = Char.ofNat 912 then [Char.ofNat 921, Char.ofNat 776, Char.ofNat 769]
    else [c.toUpper]

/-- `_generate_project_key` with the string methods made explicit: per
character append `char.upper()` (a string, possibly several characters),
the digit itself, or `"_"`, then join the pieces. -/
def _generate_project_key_py (py : PyStrSemantics) (project_name : String) : String :=
  String.mk ((project_name.data.map (fun char =>
    if py.isalpha char then py.upper char
    else if py.isdigit char then [char]
    else ['_'])).flatten)

/-! ## set_visual_recipe_payload (recipe.py, lines 283-334) -/

/-- The `compute_schema_updates()` result object: whether
`any_action_required()` holds and the outcome of `apply()` (which may
raise). -/
structure SchemaUpdates where
  any_action_required : Bool
  applyOutcome : Except String Unit

/-- The remote state `set_visual_recipe_payload` observes: the recipe's
type from its raw definition, and the outcome of
`recipe.compute_schema_updates()` (which may raise). -/
structure VisualRecipeEnv where
  recipe_type : String
  compute_schema_updates : Except String SchemaUpdates

/-- Result dict of `set_visual_recipe_payload`: either the code-recipe
`{"error": ...}` dict, or the `{"success": True, ...}` dict with its
optional `schema_updates_applied` and `schema_update_warning` keys. -/
inductive SetVisualPayloadResult where
  | error (recipe_name : String) (recipe_type : String)
  | ok (project_key : String) (recipe_name : String) (recipe_type : String)
      (schema_updates_applied : Bool) (schema_update_warning : Option String)
deriving DecidableEq, Repr

def set_visual_recipe_payload (env : VisualRecipeEnv) (project_key : String)
    (recipe_name : String) : SetVisualPayloadResult :=
  if env.recipe_type ∈ CODE_RECIPE_TYPES then
    .error recipe_name env.recipe_type
  else
    match env.compute_schema_updates with
    | .error e => .ok project_key recipe_name env.recipe_type false (some e)
    | .ok schema_updates =>
      if schema_updates.any_action_required then
        match schema_updates.applyOutcome with
        | .error e => .ok project_key recipe_name env.recipe_type false (some e)
        | .ok _ => .ok project_key recipe_name env.recipe_type true none
      else .ok project_key recipe_name env.recipe_type false none

/-! ## set_general_settings (dssclient.py, lines 521-610) -/

def ALLOWED_GENERAL_SETTINGS_KEYS : List String :=
  ["sparkSettings", "containerSettings", "defaultK8sClusterId", "security",
   "cgroupSettings", "maxRunningActivitiesPerJob", "maxRunningActivities",
   "maxRunningActivitiesPerKey"]

/-- Python dict assignment `d[k] = v` on a dict modelled as an association
list: replace the value at the first occurrence of `k`, else append. -/
def dictSet {V : Type} : List (String × V) → String → V → List (String × V)
  | [], k, v => [(k, v)]
  | (k0, v0) :: rest, k, v =>
    if k0 = k then (k0, v) :: rest else (k0, v0) :: dictSet rest k v

/-- Remote interactions of `set_general_settings`: client construction,
`client.get_general_settings()` (the read), `general_settings.save()`
(the write). -/
inductive SettingsEffect where
  | getClient
  | getGeneralSettings
  | saveGeneralSettings
deriving DecidableEq, Repr

/-- Result dict of `set_general_settings`: the invalid-keys
`{"error": ...}` dict or the success confirmation with `updatedKeys`. -/
inductive SetGeneralSettingsResult where
  | error (invalid_keys : List String)
  | ok (updatedKeys : List String)
deriving DecidableEq, Repr

/-- Embedding of `set_general_settings` over a value type `V`. `current`
is the settings dict the remote `get_general_settings()` would return;
`settings` is the argument dict, as an association list in iteration
order. Returns the result dict, the trace of remote effects, and the
settings dict passed to `save()` (`none` when `save()` never runs). -/
def set_general_settings {V : Type} (current : List (String × V))
    (settings : List (String × V)) :
    SetGeneralSettingsResult × List SettingsEffect × Option (List (String × V)) :=
  let invalid_keys :=
    (settings.map (fun kv => kv.1)).filter
      (fun key => key ∉ ALLOWED_GENERAL_SETTINGS_KEYS)
  if invalid_keys ≠ [] then
    (.error invalid_keys, [.getClient], none)
  else
    let updated := settings.foldl (fun acc kv => dictSet acc kv.1 kv.2) current
    (.ok (settings.map (fun kv => kv.1)),
     [.getClient, .getGeneralSettings, .saveGeneralSettings], some updated)

/-! ## Helper lemmas -/

theorem uint32_le_iff_toNat_le {a b : UInt32} : a ≤ b ↔ a.toNat ≤ b.toNat := by
  simp [UInt32.le_def, BitVec.le_def, UInt32.toNat]

theorem char_isAlpha_iff {c : Char} :
    c.isAlpha = true ↔ (65 ≤ c.toNat ∧ c.toNat ≤ 90) ∨ (97 ≤ c.toNat ∧ c.toNat ≤ 122) := by
  simp [Char.isAlpha, Char.isUpper, Char.isLower, ge_iff_le, uint32_le_iff_toNat_le,
    Char.toNat, UInt32.size]

theorem char_toNat_ofNat_lt {n : Nat} (h : n < 55296) : (Char.ofNat n).toNat = n := by
  have hv : n.isValidChar := Or.inl h
  unfold Char.ofNat
  rw [dif_pos hv]
  rfl

theorem toUpper_fixes_alpha {c : Char} (h : c.isAlpha = true) :
    (c.toUpper).isAlpha = true ∧ (c.toUpper).toUpper = c.toUpper := by
  rcases char_isAlpha_iff.mp h with hu | hl
  · have hfix : c.toUpper = c := by
      simp only [Char.toUpper]
      rw [if_neg (by omega)]
    rw [hfix]
    exact ⟨h, hfix⟩
  · have hstep : c.toUpper = Char.ofNat (c.toNat - 32) := by
      simp only [Char.toUpper]
      rw [if_pos (by omega)]
    have htn : (Char.ofNat (c.toNat - 32)).toNat = c.toNat - 32 :=
      char_toNat_ofNat_lt (by omega)
    have hup : (c.toUpper).isAlpha = true := by
      rw [hstep]
      exact char_isAlpha_iff.mpr (Or.inl (by omega))
    refine ⟨hup, ?_⟩
    rw [hstep]
    simp only [Char.toUpper]
    rw [if_neg (by omega)]

theorem projectKeyChar_idem (c : Char) :
    projectKeyChar (projectKeyChar c) = projectKeyChar c := by
  by_cases ha : c.isAlpha = true
  · have h2 := toUpper_fixes_alpha ha
    simp [projectKeyChar, ha, h2.1, h2.2]
  · by_cases hd : c.isDigit = true
    · simp [projectKeyChar, ha, hd]
    · simp [projectKeyChar, ha, hd]

theorem map_projectKeyChar_idem (l : List Char) :
    (l.map projectKeyChar).map projectKeyChar = l.map projectKeyChar := by
  induction l with
  | nil => rfl
  | cons a t ih => simp [projectKeyChar_idem, ih]

theorem sampleLoop_eq_take (cols : List String) (k : Nat)
    (acc : List (List (String × String))) (rs : List (List String))
    (h : acc.length < k) :
    sampleLoop cols k acc rs =
      acc ++ (rs.take (k - acc.length)).map (fun r => cols.zip r) := by
  induction rs generalizing acc with
  | nil => simp [sampleLoop]
  | cons r rs ih =>
    unfold sampleLoop
    by_cases hk : k ≤ (acc ++ [cols.zip r]).length
    · have hlen : (acc ++ [cols.zip r]).length = acc.length + 1 := by simp
      have hke : k = acc.length + 1 := by omega
      rw [if_pos hk, hke]
      have hone : acc.length + 1 - acc.length = 1 := by omega
      rw [hone]
      simp [List.take_succ_cons]
    · rw [if_neg hk]
      have hlen : (acc ++ [cols.zip r]).length = acc.length + 1 := by simp
      have hlt : (acc ++ [cols.zip r]).length < k := by omega
      rw [ih _ hlt]
      have hsub : k - acc.length = (k - (acc.length + 1)) + 1 := by omega
      rw [hlen, hsub, List.take_succ_cons]
      simp

theorem clampRows_bounds (n : Int) : 1 ≤ clampRows n ∧ clampRows n ≤ 1000 := by
  simp only [clampRows, MAX_SAMPLE_ROWS]
  split <;> split <;> omega

theorem clampRows_of_nonpos {n : Int} (h : n ≤ 0) : clampRows n = 1 := by
  have hinner : (if n > MAX_SAMPLE_ROWS then MAX_SAMPLE_ROWS else n) = n := by
    rw [if_neg (by simp only [MAX_SAMPLE_ROWS]; omega)]
  simp only [clampRows, hinner]
  rw [if_pos (by omega)]

theorem get_dataset_sample_rows_eq (env : DatasetEnv) (pk dn : String)
    (n : Int) (parts : Option String) :
    (get_dataset_sample env pk dn n parts).rows =
      ((env.iter_rows (partitionList parts)).take (clampRows n).toNat).map
        (fun r => env.columns.zip r) := by
  have h1 : 0 < (clampRows n).toNat := by
    have := (clampRows_bounds n).1
    omega
  simp only [get_dataset_sample]
  rw [sampleLoop_eq_take _ _ _ _ (by simpa using h1)]
  simp

theorem get_dataset_sample_requested_eq (env : DatasetEnv) (pk dn : String)
    (n : Int) (parts : Option String) :
    (get_dataset_sample env pk dn n parts).num_rows_requested = clampRows n := by
  simp only [get_dataset_sample]

theorem get_dataset_sample_returned_eq (env : DatasetEnv) (pk dn : String)
    (n : Int) (parts : Option String) :
    (get_dataset_sample env pk dn n parts).num_rows_returned =
      (get_dataset_sample env pk dn n parts).rows.length := by
  simp only [get_dataset_sample]

theorem lookup_dictSet_ne {V : Type} (l : List (String × V)) (k k2 : String)
    (v : V) (h : k2 ≠ k) :
    (dictSet l k v).lookup k2 = l.lookup k2 := by
  have hb : (k2 == k) = false := beq_eq_false_iff_ne.mpr h
  induction l with
  | nil =>
    simp [dictSet, List.lookup, hb]
  | cons kv rest ih =>
    obtain ⟨k0, v0⟩ := kv
    by_cases he : k0 = k
    · subst he
      simp [dictSet, List.lookup, hb]
    · simp [dictSet, he, List.lookup, ih]

theorem projectKeyChar_toNat_lt {c : Char} (hc : c.toNat < 128) :
    (projectKeyChar c).toNat < 128 := by
  by_cases h1 : c.isAlpha
  · have he : projectKeyChar c = c.toUpper := by simp [projectKeyChar, h1]
    rw [he]
    simp only [Char.toUpper]
    by_cases hl : c.toNat ≥ 97 ∧ c.toNat ≤ 122
    · rw [if_pos hl, char_toNat_ofNat_lt (by omega)]
      omega
    · rw [if_neg hl]
      exact hc
  · by_cases h2 : c.isDigit
    · have he : projectKeyChar c = c := by simp [projectKeyChar, h1, h2]
      rw [he]
      exact hc
    · have he : projectKeyChar c = Char.ofNat 95 := by simp [projectKeyChar, h1, h2]
      rw [he, char_toNat_ofNat_lt (by omega)]
      omega

theorem py_char_ascii (py : PyStrSemantics)
    (hagree : ∀ c : Char, c.toNat < 128 →
      py.isalpha c = c.isAlpha ∧ py.isdigit c = c.isDigit ∧
      py.upper c = [c.toUpper])
    {c : Char} (hc : c.toNat < 128) :
    (if py.isalpha c then py.upper c
     else if py.isdigit c then [c] else ['_']) = [projectKeyChar c] := by
  obtain ⟨ha, hd, hu⟩ := hagree c hc
  rw [ha, hd]
  unfold projectKeyChar
  by_cases h1 : c.isAlpha
  · simp [h1, hu]
  · by_cases h2 : c.isDigit
    · simp [h1, h2]
    · simp [h1, h2]

theorem py_map_ascii (py : PyStrSemantics)
    (hagree : ∀ c : Char, c.toNat < 128 →
      py.isalpha c = c.isAlpha ∧ py.isdigit c = c.isDigit ∧
      py.upper c = [c.toUpper])
    (l : List Char) (hl : ∀ c ∈ l, c.toNat < 128) :
    (l.map (fun char =>
      if py.isalpha char then py.upper char
      else if py.isdigit char then [char] else ['_'])).flatten =
      l.map projectKeyChar := by
  induction l with
  | nil => rfl
  | cons a t ih =>
    simp only [List.map_cons, List.flatten_cons]
    rw [py_char_ascii py hagree (hl a (by simp)),
      ih (fun c hc => hl c (by simp [hc]))]
    rfl

theorem generate_project_key_py_eq (py : PyStrSemantics)
    (hagree : ∀ c : Char, c.toNat < 128 →
      py.isalpha c = c.isAlpha ∧ py.isdigit c = c.isDigit ∧
      py.upper c = [c.toUpper])
    (s : String) (hs : ∀ c ∈ s.data, c.toNat < 128) :
    _generate_project_key_py py s = _generate_project_key s := by
  unfold _generate_project_key_py _generate_project_key
  rw [py_map_ascii py hagree s.data hs]

theorem pythonStrMethods_ascii_agree :
    ∀ c : Char, c.toNat < 128 →
      pythonStrMethods.isalpha c = c.isAlpha ∧
      pythonStrMethods.isdigit c = c.isDigit ∧
      pythonStrMethods.upper c = [c.toUpper] := by
  intro c hc
  have h912 : ¬ c = Char.ofNat 912 := by
    intro he
    rw [he, char_toNat_ofNat_lt (by omega)] at hc
    omega
  have h921 : ¬ c = Char.ofNat 921 := by
    intro he
    rw [he, char_toNat_ofNat_lt (by omega)] at hc
    omega
  refine ⟨?_, rfl, ?_⟩
  · simp [pythonStrMethods, h912, h921]
  · simp only [pythonStrMethods]
    rw [if_neg h912]

theorem lookup_foldl_dictSet {V : Type} (settings : List (String × V))
    (current : List (String × V)) (k : String)
    (h : k ∉ settings.map (fun kv => kv.1)) :
    (settings.foldl (fun acc kv => dictSet acc kv.1 kv.2) current).lookup k =
      current.lookup k := by
  induction settings generalizing current with
  | nil => rfl
  | cons kv rest ih =>
    simp only [List.map_cons, List.mem_cons] at h
    push_neg at h
    rw [List.foldl_cons, ih _ h.2, lookup_dictSet_ne _ _ _ _ h.1]

/-! ## Claim theorems -/

/-- Claim C1: `create_recipe` performs its six local validation checks in
exactly the spec's order, short-circuiting at the first failure: whenever
the earliest violated check (as computed by scanning `validationChecks`
in order) reports error `e`, `create_recipe` returns exactly `e` — with an
empty remote trace — regardless of which later checks also fail. -/
theorem create_recipe_validation_order
    (env : DSSEnv) (project_key recipe_type : String) (inputs : List String)
    (outputs : List OutputSpec) (recipe_name code : Option String)
    (e : RecipeError)
    (h : firstValidationError recipe_type inputs outputs code = some e) :
    create_recipe env project_key recipe_type inputs outputs recipe_name code =
      (.error e, []) := by
  unfold firstValidationError validationChecks at h
  unfold create_recipe
  by_cases h1 : recipe_type ∉ ALL_RECIPE_TYPES
  · simp [h1] at h ⊢
    exact h
  · by_cases h2 : inputs.length < 1
    · simp [h1, h2] at h ⊢
      exact h
    · by_cases h3 : outputs.length < 1
      · simp [h1, h2, h3] at h ⊢
        exact h
      · by_cases h4 : recipe_type ∈ SINGLE_INPUT_TYPES ∧ inputs.length > 1
        · simp [h1, h2, h3, h4] at h ⊢
          exact h
        · by_cases h5 : recipe_type ∈ SINGLE_OUTPUT_TYPES ∧ outputs.length > 1
          · simp [h1, h2, h3, h4, h5] at h ⊢
            exact h
          · by_cases h6 : code ≠ none ∧ recipe_type ∉ CODE_RECIPE_TYPES
            · simp [h1, h2, h3, h4, h5, h6] at h ⊢
              exact h
            · simp [h1, h2, h3, h4, h5, h6] at h

/-- Witness for C1 at a call violating several checks at once (unknown
type, empty inputs, empty outputs, and code supplied): the error returned
is that of the earliest check, the unknown recipe type. -/
theorem create_recipe_validation_order_witness :
    firstValidationError "bogus" [] [] (some "x") =
      some (.unknownRecipeType "bogus") ∧
    create_recipe ⟨["A"], "r1"⟩ "P" "bogus" [] [] none (some "x") =
      (.error (.unknownRecipeType "bogus"), []) :=
  ⟨by decide,
   create_recipe_validation_order ⟨["A"], "r1"⟩ "P" "bogus" [] [] none
     (some "x") (.unknownRecipeType "bogus") (by decide)⟩

/-- Claim C2: every call of `create_recipe` violating one of the six local
validation checks returns an `error` result with an empty remote trace: no
client is constructed, no project is read, no dataset listing happens, and
no recipe is created. -/
theorem create_recipe_local_failure_no_remote
    (env : DSSEnv) (project_key recipe_type : String) (inputs : List String)
    (outputs : List OutputSpec) (recipe_name code : Option String)
    (h : recipe_type ∉ ALL_RECIPE_TYPES ∨ inputs = [] ∨ outputs = [] ∨
      (recipe_type ∈ SINGLE_INPUT_TYPES ∧ inputs.length > 1) ∨
      (recipe_type ∈ SINGLE_OUTPUT_TYPES ∧ outputs.length > 1) ∨
      (code ≠ none ∧ recipe_type ∉ CODE_RECIPE_TYPES)) :
    ∃ e, create_recipe env project_key recipe_type inputs outputs recipe_name code =
      (.error e, []) := by
  by_cases h1 : recipe_type ∉ ALL_RECIPE_TYPES
  · exact ⟨.unknownRecipeType recipe_type, by simp [create_recipe, h1]⟩
  by_cases h2 : inputs.length < 1
  · exact ⟨.missingInputs inputs.length, by simp [create_recipe, h1, h2]⟩
  by_cases h3 : outputs.length < 1
  · exact ⟨.missingOutputs outputs.length, by simp [create_recipe, h1, h2, h3]⟩
  by_cases h4 : recipe_type ∈ SINGLE_INPUT_TYPES ∧ inputs.length > 1
  · exact ⟨.inputArity recipe_type inputs.length,
      by simp [create_recipe, h1, h2, h3, h4]⟩
  by_cases h5 : recipe_type ∈ SINGLE_OUTPUT_TYPES ∧ outputs.length > 1
  · exact ⟨.outputArity recipe_type outputs.length,
      by simp [create_recipe, h1, h2, h3, h4, h5]⟩
  by_cases h6 : code ≠ none ∧ recipe_type ∉ CODE_RECIPE_TYPES
  · exact ⟨.scriptNotApplicable recipe_type,
      by simp [create_recipe, h1, h2, h3, h4, h5, h6]⟩
  exfalso
  rcases h with h | h | h | h | h | h
  · exact h1 h
  · rw [h] at h2
    exact h2 (by simp)
  · rw [h] at h3
    exact h3 (by simp)
  · exact h4 h
  · exact h5 h
  · exact h6 h

/-- Witness for C2: two inputs on the single-input type `sync` yields an
error result and an empty remote trace. -/
theorem create_recipe_local_failure_no_remote_witness :
    ∃ e, create_recipe ⟨[], "r1"⟩ "P" "sync" ["A", "B"] [⟨"C", false⟩]
      none none = (.error e, []) :=
  create_recipe_local_failure_no_remote ⟨[], "r1"⟩ "P" "sync" ["A", "B"]
    [⟨"C", false⟩] none none
    (Or.inr (Or.inr (Or.inr (Or.inl ⟨by decide, by decide⟩))))

/-- Claim C3: when all local validation passes and some referenced input
or output dataset is absent from the project catalog, `create_recipe`
stops after the remote dataset listing — never issuing the recipe-creation
call — and returns an error naming exactly the missing input names (or,
when all inputs exist, exactly the missing output names). -/
theorem create_recipe_missing_datasets_fail_fast
    (env : DSSEnv) (project_key recipe_type : String) (inputs : List String)
    (outputs : List OutputSpec) (recipe_name code : Option String)
    (hval : firstValidationError recipe_type inputs outputs code = none)
    (hmiss : (∃ n ∈ inputs, n ∉ env.datasets) ∨
      (∃ o ∈ outputs, o.name ∉ env.datasets)) :
    create_recipe env project_key recipe_type inputs outputs recipe_name code =
      (if inputs.filter (fun n => n ∉ env.datasets) ≠ [] then
        CreateRecipeResult.error (.inputDatasetsNotFound project_key
          (inputs.filter (fun n => n ∉ env.datasets)))
      else
        CreateRecipeResult.error (.outputDatasetsNotFound project_key
          ((outputs.map (fun o => o.name)).filter (fun n => n ∉ env.datasets))),
       [.getClient, .getProject project_key, .listDatasets]) := by
  simp only [firstValidationError, validationChecks, List.find?] at hval
  by_cases h1 : recipe_type ∉ ALL_RECIPE_TYPES
  · simp [h1] at hval
  by_cases h2 : inputs.length < 1
  · simp [h1, h2] at hval
  by_cases h3 : outputs.length < 1
  · simp [h1, h2, h3] at hval
  by_cases h4 : recipe_type ∈ SINGLE_INPUT_TYPES ∧ inputs.length > 1
  · simp [h1, h2, h3, h4] at hval
  by_cases h5 : recipe_type ∈ SINGLE_OUTPUT_TYPES ∧ outputs.length > 1
  · simp [h1, h2, h3, h4, h5] at hval
  by_cases h6 : code ≠ none ∧ recipe_type ∉ CODE_RECIPE_TYPES
  · simp [h1, h2, h3, h4, h5, h6] at hval
  unfold create_recipe
  simp only [h1, h2, h3, h4, h5, h6, if_false]
  by_cases hin : inputs.filter (fun n => n ∉ env.datasets) ≠ []
  · have hex : ∃ x ∈ inputs, x ∉ env.datasets := by
      simp only [ne_eq, List.filter_eq_nil_iff] at hin
      push_neg at hin
      simpa using hin
    simp [hin, hex]
  · rw [not_ne_iff] at hin
    have hnex : ¬ ∃ x ∈ inputs, x ∉ env.datasets := by
      have hfa := List.filter_eq_nil_iff.mp hin
      simpa using hfa
    have hoex : ∃ o ∈ outputs, o.name ∉ env.datasets := by
      rcases hmiss with ⟨n, hn, hnd⟩ | hex2
      · exact absurd ⟨n, hn, hnd⟩ hnex
      · exact hex2
    simp [hin, hnex, hoex]

/-- Witness for C3, the spec's own example: inputs `["A", "B"]`, outputs
`[{name: "C"}]`, type `"join"`, catalog `{A, C}`: the result is an error
naming exactly `B`, after listing datasets and without creating a
recipe. -/
theorem create_recipe_missing_datasets_fail_fast_witness :
    create_recipe ⟨["A", "C"], "r1"⟩ "P" "join" ["A", "B"] [⟨"C", false⟩]
      none none =
      (.error (.inputDatasetsNotFound "P" ["B"]),
       [.getClient, .getProject "P", .listDatasets]) := by
  have h := create_recipe_missing_datasets_fail_fast ⟨["A", "C"], "r1"⟩ "P"
    "join" ["A", "B"] [⟨"C", false⟩] none none (by decide)
    (Or.inl ⟨"B", by decide, by decide⟩)
  rw [h]
  decide

/-- Claim C4: the six recipe-type classification tables are pairwise
disjoint and their union is `ALL_RECIPE_TYPES`: every accepted recipe type
identifier belongs to exactly one of the six classes, and every class
member is an accepted identifier. -/
theorem recipe_type_classes_partition :
    (ALL_RECIPE_TYPES.all (fun t =>
      (RECIPE_TYPE_CLASSES.countP (fun c => c.contains t)) = 1)) = true ∧
    (RECIPE_TYPE_CLASSES.all (fun c =>
      c.all (fun t => ALL_RECIPE_TYPES.contains t))) = true :=
  ⟨by decide, by decide⟩

/-- Claim C5: `get_dataset_sample` clamps the requested row count into
`[1, 1000]`: at `num_rows = 5000` both the returned `num_rows_requested`
field and the row collection use 1000, and at any `num_rows ≤ 0` they use
1. -/
theorem get_dataset_sample_clamps
    (env : DatasetEnv) (pk dn : String) (parts : Option String) :
    ((get_dataset_sample env pk dn 5000 parts).num_rows_requested = 1000 ∧
     (get_dataset_sample env pk dn 5000 parts).rows =
       ((env.iter_rows (partitionList parts)).take 1000).map
         (fun r => env.columns.zip r)) ∧
    ∀ n : Int, n ≤ 0 →
      (get_dataset_sample env pk dn n parts).num_rows_requested = 1 ∧
      (get_dataset_sample env pk dn n parts).rows =
        ((env.iter_rows (partitionList parts)).take 1).map
          (fun r => env.columns.zip r) := by
  have h5000 : clampRows 5000 = 1000 := by decide
  constructor
  · constructor
    · rw [get_dataset_sample_requested_eq, h5000]
    · rw [get_dataset_sample_rows_eq, h5000]
      rfl
  · intro n hn
    have hc := clampRows_of_nonpos hn
    constructor
    · rw [get_dataset_sample_requested_eq, hc]
    · rw [get_dataset_sample_rows_eq, hc]
      rfl

/-- Witness for C5 on a two-row dataset: `num_rows = 5000` is accounted as
1000, and `num_rows = -3` is accounted as 1 with a single row collected. -/
theorem get_dataset_sample_clamps_witness :
    (get_dataset_sample ⟨["c"], fun _ => [["1"], ["2"]]⟩ "P" "D" 5000
      none).num_rows_requested = 1000 ∧
    (get_dataset_sample ⟨["c"], fun _ => [["1"], ["2"]]⟩ "P" "D" (-3)
      none).num_rows_requested = 1 ∧
    (get_dataset_sample ⟨["c"], fun _ => [["1"], ["2"]]⟩ "P" "D" (-3)
      none).rows = [[("c", "1")]] := by
  refine ⟨(get_dataset_sample_clamps ⟨["c"], fun _ => [["1"], ["2"]]⟩
    "P" "D" none).1.1, ?_, ?_⟩
  · exact ((get_dataset_sample_clamps ⟨["c"], fun _ => [["1"], ["2"]]⟩
      "P" "D" none).2 (-3) (by omega)).1
  · have h := ((get_dataset_sample_clamps ⟨["c"], fun _ => [["1"], ["2"]]⟩
      "P" "D" none).2 (-3) (by omega)).2
    rw [h]
    rfl

/-- Claim C6: `get_dataset_sample` returns exactly
`min(clamped num_rows, n)` rows for a source exposing `n` rows, so
`num_rows_returned ≤ num_rows_requested` and the rows list never has more
entries than the source. -/
theorem get_dataset_sample_row_bounds
    (env : DatasetEnv) (pk dn : String) (num_rows : Int)
    (parts : Option String) :
    (get_dataset_sample env pk dn num_rows parts).num_rows_returned =
      min (clampRows num_rows).toNat
        (env.iter_rows (partitionList parts)).length ∧
    ((get_dataset_sample env pk dn num_rows parts).num_rows_returned : Int) ≤
      (get_dataset_sample env pk dn num_rows parts).num_rows_requested ∧
    (get_dataset_sample env pk dn num_rows parts).rows.length ≤
      (env.iter_rows (partitionList parts)).length := by
  have hret := get_dataset_sample_returned_eq env pk dn num_rows parts
  have hrows := get_dataset_sample_rows_eq env pk dn num_rows parts
  have hreq := get_dataset_sample_requested_eq env pk dn num_rows parts
  have hlen : (get_dataset_sample env pk dn num_rows parts).rows.length =
      min (clampRows num_rows).toNat
        (env.iter_rows (partitionList parts)).length := by
    rw [hrows]
    simp
  have hb := clampRows_bounds num_rows
  refine ⟨by rw [hret, hlen], ?_, by rw [hlen]; exact Nat.min_le_right _ _⟩
  rw [hret, hlen, hreq]
  have hmin : min (clampRows num_rows).toNat
      (env.iter_rows (partitionList parts)).length ≤
      (clampRows num_rows).toNat := Nat.min_le_left _ _
  omega

/-- Claim C7: project-key generation maps each character independently:
alphabetic characters to uppercase, digits unchanged, all other characters
to an underscore; in particular `"My Project #1"` becomes
`"MY_PROJECT__1"`. -/
theorem generate_project_key_charwise :
    (∀ name : String,
      (_generate_project_key name).data = name.data.map projectKeyChar) ∧
    (∀ c : Char,
      (c.isAlpha = true → projectKeyChar c = c.toUpper) ∧
      (c.isAlpha = false → c.isDigit = true → projectKeyChar c = c) ∧
      (c.isAlpha = false → c.isDigit = false → projectKeyChar c = '_')) ∧
    _generate_project_key "My Project #1" = "MY_PROJECT__1" := by
  refine ⟨fun name => rfl, fun c => ⟨?_, ?_, ?_⟩, by decide⟩
  · intro h
    simp [projectKeyChar, h]
  · intro h1 h2
    simp [projectKeyChar, h1, h2]
  · intro h1 h2
    simp [projectKeyChar, h1, h2]

/-- Witness for C7 at concrete characters of each kind. -/
theorem generate_project_key_charwise_witness :
    projectKeyChar 'a' = 'A' ∧ projectKeyChar '7' = '7' ∧
    projectKeyChar '#' = '_' :=
  ⟨(generate_project_key_charwise.2.1 'a').1 (by decide),
   (generate_project_key_charwise.2.1 '7').2.1 (by decide) (by decide),
   (generate_project_key_charwise.2.1 '#').2.2 (by decide) (by decide)⟩

/-- Claim C8: in `set_visual_recipe_payload`, once the recipe is visual
(so the payload gets set and saved), any exception raised while computing
or applying schema updates is reported as a `schema_update_warning` field
on a result that still carries `success = True` — it never aborts the
operation or turns the result into an error. -/
theorem set_visual_recipe_payload_warning_is_success
    (env : VisualRecipeEnv) (pk rn : String) (e : String)
    (hvisual : env.recipe_type ∉ CODE_RECIPE_TYPES)
    (hexc : env.compute_schema_updates = .error e ∨
      ∃ su, env.compute_schema_updates = .ok su ∧
        su.any_action_required = true ∧ su.applyOutcome = .error e) :
    set_visual_recipe_payload env pk rn =
      .ok pk rn env.recipe_type false (some e) := by
  unfold set_visual_recipe_payload
  rcases hexc with h | ⟨su, h1, h2, h3⟩
  · rw [if_neg hvisual, h]
  · rw [if_neg hvisual, h1]
    simp only [h2, if_true, h3]

/-- Witness for C8: a `join` recipe whose `compute_schema_updates` raises
`"boom"` still yields a success result carrying the warning. -/
theorem set_visual_recipe_payload_warning_is_success_witness :
    set_visual_recipe_payload ⟨"join", .error "boom"⟩ "P" "R" =
      .ok "P" "R" "join" false (some "boom") :=
  set_visual_recipe_payload_warning_is_success ⟨"join", .error "boom"⟩
    "P" "R" "boom" (by decide) (Or.inl rfl)

/-- Claim C9: `set_general_settings` modifies only the keys present in its
argument — every other key of the fetched settings is saved back with its
value unchanged — and when any argument key is outside the allowed list it
returns an error result without reading or saving the remote settings. -/
theorem set_general_settings_frame (V : Type)
    (current settings : List (String × V)) :
    ((∀ k ∈ settings.map (fun kv => kv.1), k ∈ ALLOWED_GENERAL_SETTINGS_KEYS) →
      ∃ updated,
        set_general_settings current settings =
          (.ok (settings.map (fun kv => kv.1)),
           [.getClient, .getGeneralSettings, .saveGeneralSettings],
           some updated) ∧
        ∀ k, k ∉ settings.map (fun kv => kv.1) →
          updated.lookup k = current.lookup k) ∧
    ((∃ k ∈ settings.map (fun kv => kv.1), k ∉ ALLOWED_GENERAL_SETTINGS_KEYS) →
      set_general_settings current settings =
        (.error ((settings.map (fun kv => kv.1)).filter
          (fun key => key ∉ ALLOWED_GENERAL_SETTINGS_KEYS)),
         [.getClient], none)) := by
  constructor
  · intro hall
    have hnil : (settings.map (fun kv => kv.1)).filter
        (fun key => key ∉ ALLOWED_GENERAL_SETTINGS_KEYS) = [] := by
      rw [List.filter_eq_nil_iff]
      intro a ha
      simpa using hall a ha
    refine ⟨settings.foldl (fun acc kv => dictSet acc kv.1 kv.2) current, ?_, ?_⟩
    · simp only [set_general_settings]
      rw [if_neg (by simpa using hnil)]
    · intro k hk
      exact lookup_foldl_dictSet settings current k hk
  · intro ⟨k, hk, hka⟩
    have hne : (settings.map (fun kv => kv.1)).filter
        (fun key => key ∉ ALLOWED_GENERAL_SETTINGS_KEYS) ≠ [] := by
      intro hnil
      have hmem := List.filter_eq_nil_iff.mp hnil k hk
      simp at hmem
      exact hka hmem
    simp only [set_general_settings]
    rw [if_pos hne]

/-- Witness for C9: updating the allowed key `security` leaves the other
stored key `theme` unchanged, and an argument containing `badKey` fails
with no read or save. -/
theorem set_general_settings_frame_witness :
    (∃ updated,
      set_general_settings [("security", (0 : Nat)), ("theme", 7)]
          [("security", 1)] =
        (.ok ([(("security" : String), (1 : Nat))].map (fun kv => kv.1)),
         [.getClient, .getGeneralSettings, .saveGeneralSettings],
         some updated) ∧
      ∀ k, k ∉ [(("security" : String), (1 : Nat))].map (fun kv => kv.1) →
        updated.lookup k =
          List.lookup k [("security", (0 : Nat)), ("theme", 7)]) ∧
    set_general_settings [("security", (0 : Nat))] [("badKey", (5 : Nat))] =
      (.error (([(("badKey" : String), (5 : Nat))].map
          (fun kv => kv.1)).filter
        (fun key => key ∉ ALLOWED_GENERAL_SETTINGS_KEYS)),
       [.getClient], none) :=
  ⟨(set_general_settings_frame Nat _ _).1 (by decide),
   (set_general_settings_frame Nat _ _).2 ⟨"badKey", by decide, by decide⟩⟩

/-- Counterexample to claim C10 as stated: under Python's Unicode string
methods `_generate_project_key` is not idempotent. On the one-character
string U+0390 (ΐ), the first pass uppercases it — by full case mapping —
to U+0399 U+0308 U+0301; on the second pass the two combining marks are
neither alphabetic nor digits and become underscores, giving U+0399 `__`,
a different string. -/
theorem generate_project_key_not_idempotent :
    _generate_project_key_py pythonStrMethods
        (_generate_project_key_py pythonStrMethods (String.mk [Char.ofNat 912])) ≠
      _generate_project_key_py pythonStrMethods (String.mk [Char.ofNat 912]) := by
  decide

/-- Claim C10 (amended): `_generate_project_key` is idempotent on ASCII
input. For any character semantics that agrees with the ASCII behaviour
on ASCII characters (the alphabetic and digit tests, and single-character
uppercasing) and any string of ASCII characters, the function applied
twice equals the function applied once — and coincides with the ASCII
per-character model. Full Unicode case mapping breaks idempotence, since
`upper()` may expand a letter into a letter plus combining marks that a
second pass sends to underscores. -/
theorem generate_project_key_idempotent_ascii (py : PyStrSemantics)
    (s : String)
    (hagree : ∀ c : Char, c.toNat < 128 →
      py.isalpha c = c.isAlpha ∧ py.isdigit c = c.isDigit ∧
      py.upper c = [c.toUpper])
    (hs : ∀ c ∈ s.data, c.toNat < 128) :
    _generate_project_key_py py s = _generate_project_key s ∧
    _generate_project_key_py py (_generate_project_key_py py s) =
      _generate_project_key_py py s := by
  have h1 := generate_project_key_py_eq py hagree s hs
  have hout : ∀ c ∈ (_generate_project_key s).data, c.toNat < 128 := by
    intro c hcmem
    unfold _generate_project_key at hcmem
    obtain ⟨a, haz, rfl⟩ := List.mem_map.mp hcmem
    exact projectKeyChar_toNat_lt (hs a haz)
  have h2 := generate_project_key_py_eq py hagree (_generate_project_key s) hout
  refine ⟨h1, ?_⟩
  rw [h1, h2]
  unfold _generate_project_key
  exact congrArg String.mk (map_projectKeyChar_idem s.data)

/-- Witness for the amended C10 at the concrete Python semantics fragment
and the ASCII string of the C7 example. -/
theorem generate_project_key_idempotent_ascii_witness :
    _generate_project_key_py pythonStrMethods
        (_generate_project_key_py pythonStrMethods "My Project #1") =
      _generate_project_key_py pythonStrMethods "My Project #1" :=
  (generate_project_key_idempotent_ascii pythonStrMethods "My Project #1"
    pythonStrMethods_ascii_agree (by decide)).2

end DssMcp
